import Mathlib

/-!
Verification of the procurement daily ETL pipeline (src/dags/pipeline.py).

The pipeline's computational core is three Trino SQL queries embedded in
aggregate_orders_with_trino, calculate_net_demand_with_trino and
generate_supplier_orders_with_trino, plus the purchase-order id assignment
loop, the file-upload behaviour of each task, and generate_pipeline_summary.
This file gives a shallow embedding of those parts over lists of records and
proves/refutes the frozen claims about them.

Conventions of the embedding:
- SQL BIGINT columns become Int (the raw VARCHAR columns of the Hive tables
  are taken post-CAST; the CAST(x AS BIGINT) in the queries is parsing of
  integer-valued strings, which no claim exercises).
- NUMERIC prices become Int, read in minor currency units (centimes), so the
  embedding is exact; every ordering or product fact a claim uses is invariant
  under this scaling.
- SQL inner/left joins with key lookups become List.find? over the joined
  table; the tables involved are keyed (primary keys in postgres), and the
  theorems that depend on which row a join picks are stated via find?
  directly, so first-match semantics is exactly what is proved.
- An ORDER BY without a full tie-break does not determine an output order;
  such outputs are modelled by a predicate (permutation of the computed row
  multiset + sortedness on the ORDER BY key) rather than a function.
-/

namespace Procurement

/-- One raw order line (Hive table `orders`, columns after CAST to BIGINT). -/
structure OrderLine where
  order_id : String
  supplier_id : String
  sku_id : Int
  quantity : Int
  warehouse_id : Int
  order_date : String
deriving DecidableEq

/-- Product reference record (postgres `products`). -/
structure Product where
  sku_id : Int
  sku_code : String
  name : String
  category : String
deriving DecidableEq

/-- Warehouse reference record (postgres `warehouses`). -/
structure Warehouse where
  warehouse_id : Int
  warehouse_code : String
  name : String
  city : String
deriving DecidableEq

/-- Global safety-stock policy row (postgres `safety_stock`). -/
structure SafetyStock where
  sku_id : Int
  safety_stock_qty : Int
deriving DecidableEq

/-- Per-warehouse safety-stock policy row (postgres `safety_stock_by_warehouse`). -/
structure SafetyStockByWarehouse where
  sku_id : Int
  warehouse_id : Int
  safety_stock_qty : Int
deriving DecidableEq

/-- Inventory snapshot row (Cassandra `inventory_snapshots`). -/
structure InventorySnapshot where
  sku_code : String
  snapshot_date : String
  warehouse_code : String
  available_qty : Int
  reserved_qty : Int
deriving DecidableEq

/-- Supplier master record (postgres `suppliers`). -/
structure Supplier where
  supplier_id : Int
  supplier_code : String
  name : String
  is_active : Bool
deriving DecidableEq

/-- Supplier offer for a SKU (postgres `supplier_products`). -/
structure SupplierProduct where
  supplier_id : Int
  sku_id : Int
  pack_size : Int
  min_order_qty : Int
  lead_time_days : Int
  unit_price : Int
  currency : String
  is_active : Bool
deriving DecidableEq

/-- Raw stock entry (Hive table `stock`); only its row count reaches the summary. -/
structure StockEntry where
  warehouse_id : Int
  sku_id : Int
  current_stock : Int
deriving DecidableEq

/-- The full input of one pipeline run for one calculation date. -/
structure PipelineInput where
  orders : List OrderLine
  stock : List StockEntry
  snapshots : List InventorySnapshot
  products : List Product
  warehouses : List Warehouse
  safety_stock : List SafetyStock
  safety_stock_by_warehouse : List SafetyStockByWarehouse
  supplier_products : List SupplierProduct
  suppliers : List Supplier
  /-- execution date formatted YYYY-MM-DD (date_str_iso in the source). -/
  dateIso : String
  /-- execution date formatted DD-MM-YYYY (date_str in the source). -/
  dateStr : String
deriving DecidableEq

/-! ## Task 5 / CTE aggregated_orders: grouping with inner joins -/

/-- The inner-join condition of the aggregation query: the line has a matching
product row (on sku_id) and a matching warehouse row (on warehouse_id). -/
def matchedLine (products : List Product) (warehouses : List Warehouse)
    (o : OrderLine) : Bool :=
  (products.find? (fun p => p.sku_id == o.sku_id)).isSome &&
  (warehouses.find? (fun w => w.warehouse_id == o.warehouse_id)).isSome

/-- One row of the GROUP BY result of the aggregation query. -/
structure AggRow where
  sku_id : Int
  sku_code : String
  product_name : String
  category : String
  warehouse_id : Int
  warehouse_code : String
  warehouse_name : String
  city : String
  total_quantity : Int
  order_count : Int
  order_date : String
deriving DecidableEq

/-- Code-point lexicographic strictly-less test on character lists (the
comparison SQL uses for VARCHAR). -/
def lexLtb : List Char → List Char → Bool
  | _, [] => false
  | [], _ :: _ => true
  | a :: as, b :: bs =>
    if a.toNat < b.toNat then true
    else if b.toNat < a.toNat then false
    else lexLtb as bs

/-- MAX over VARCHAR order dates (lexicographic). -/
def maxDate (l : List String) : String :=
  l.foldl (fun a b => if lexLtb a.data b.data then b else a) ""

/-- The GROUP BY (sku_id, warehouse_id) result of the aggregation query in
aggregate_orders_with_trino (pipeline.py lines 412-430): inner join to
products and warehouses, SUM(quantity), COUNT(*), MAX(order_date).
The list order is one arbitrary group enumeration; the query only fixes the
multiset of rows (ordering is treated separately via IsAggOutput). -/
def aggregated_orders (inp : PipelineInput) : List AggRow :=
  let matched := inp.orders.filter (matchedLine inp.products inp.warehouses)
  let keys := (matched.map (fun o => (o.sku_id, o.warehouse_id))).dedup
  keys.filterMap (fun k =>
    match inp.products.find? (fun p => p.sku_id == k.1),
          inp.warehouses.find? (fun w => w.warehouse_id == k.2) with
    | some p, some w =>
      let group := matched.filter (fun o => o.sku_id == k.1 && o.warehouse_id == k.2)
      some { sku_id := k.1
             sku_code := p.sku_code
             product_name := p.name
             category := p.category
             warehouse_id := k.2
             warehouse_code := w.warehouse_code
             warehouse_name := w.name
             city := w.city
             total_quantity := (group.map (fun o => o.quantity)).sum
             order_count := group.length
             order_date := maxDate (group.map (fun o => o.order_date)) }
    | _, _ => none)

/-- ORDER BY total_quantity DESC fixes only this much about the emitted row
sequence of aggregate_orders_with_trino: it is some permutation of the group
rows that is non-increasing in total_quantity.  The query has no tie-break. -/
def IsAggOutput (inp : PipelineInput) (out : List AggRow) : Prop :=
  out.Perm (aggregated_orders inp) ∧
  out.Pairwise (fun a b => b.total_quantity ≤ a.total_quantity)

instance (inp : PipelineInput) (out : List AggRow) : Decidable (IsAggOutput inp out) := by
  unfold IsAggOutput; infer_instance

/-- Count of order lines dropped by the aggregation inner joins (the
unmatched-reference count the spec asks to surface; the pipeline itself never
computes it). -/
def unmatchedLineCount (inp : PipelineInput) : Nat :=
  (inp.orders.filter (fun o => !(matchedLine inp.products inp.warehouses o))).length

/-! ## Task 6 / net demand -/

/-- One row of the CTE safety_stock_combined. -/
structure SafetyRow where
  sku_id : Int
  warehouse_id : Int
  safety_stock_qty : Int
deriving DecidableEq

/-- One row of the CROSS JOIN / LEFT JOIN in safety_stock_combined: the pair
(global row s, warehouse w) with the per-warehouse override applied when the
LEFT JOIN matches (the COALESCE chain of pipeline.py lines 512-514). -/
def safetyRowFor (ssw : List SafetyStockByWarehouse) (s : SafetyStock)
    (w : Warehouse) : SafetyRow :=
  match ssw.find? (fun e => e.sku_id == s.sku_id && e.warehouse_id == w.warehouse_id) with
  | some e => { sku_id := s.sku_id, warehouse_id := w.warehouse_id
                safety_stock_qty := e.safety_stock_qty }
  | none => { sku_id := s.sku_id, warehouse_id := w.warehouse_id
              safety_stock_qty := s.safety_stock_qty }

/-- The CTE safety_stock_combined (pipeline.py lines 510-519):
FROM safety_stock ss CROSS JOIN warehouses w LEFT JOIN
safety_stock_by_warehouse ssw ON (sku, warehouse), with
COALESCE(ssw.safety_stock_qty, ss.safety_stock_qty, 0).
Note the driving table is the global safety_stock table: a SKU with no
global row contributes no combined row at all. -/
def safety_stock_combined (ss : List SafetyStock)
    (ssw : List SafetyStockByWarehouse) (whs : List Warehouse) : List SafetyRow :=
  ss.flatMap (fun s => whs.map (safetyRowFor ssw s))

/-- COALESCE(ss.safety_stock_qty, 0) over the LEFT JOIN of the net-demand
query to safety_stock_combined: the safety stock actually applied to a
given (sku_id, warehouse_id). -/
def resolvedSafety (ss : List SafetyStock) (ssw : List SafetyStockByWarehouse)
    (whs : List Warehouse) (sku wh : Int) : Int :=
  match (safety_stock_combined ss ssw whs).find?
      (fun r => r.sku_id == sku && r.warehouse_id == wh) with
  | some r => r.safety_stock_qty
  | none => 0

/-- The CTE inventory_data: snapshots restricted to the calculation date. -/
def inventory_data (snaps : List InventorySnapshot) (dateIso : String) :
    List InventorySnapshot :=
  snaps.filter (fun s => s.snapshot_date == dateIso)

/-- One row of the net-demand result (calculate_net_demand_with_trino). -/
structure NetDemandRow where
  sku_id : Int
  sku_code : String
  product_name : String
  category : String
  warehouse_id : Int
  warehouse_code : String
  warehouse_name : String
  city : String
  aggregated_orders : Int
  safety_stock : Int
  available_stock : Int
  reserved_stock : Int
  effective_stock : Int
  net_demand : Int
  calculation_date : String
deriving DecidableEq

/-- The net-demand query of calculate_net_demand_with_trino (pipeline.py
lines 499-541) applied to one aggregated row: LEFT JOIN to
safety_stock_combined and to inventory_data, COALESCE defaults to 0, and
GREATEST(0, total + safety - (available - reserved)).  The Python loop at
line 549 then adds calculation_date = date_str. -/
def netDemandOfAgg (inp : PipelineInput) (ao : AggRow) : NetDemandRow :=
  let ssq := resolvedSafety inp.safety_stock inp.safety_stock_by_warehouse
      inp.warehouses ao.sku_id ao.warehouse_id
  let inv := (inventory_data inp.snapshots inp.dateIso).find?
      (fun s => s.sku_code == ao.sku_code && s.warehouse_code == ao.warehouse_code)
  let avail := match inv with | some s => s.available_qty | none => 0
  let res := match inv with | some s => s.reserved_qty | none => 0
  { sku_id := ao.sku_id
    sku_code := ao.sku_code
    product_name := ao.product_name
    category := ao.category
    warehouse_id := ao.warehouse_id
    warehouse_code := ao.warehouse_code
    warehouse_name := ao.warehouse_name
    city := ao.city
    aggregated_orders := ao.total_quantity
    safety_stock := ssq
    available_stock := avail
    reserved_stock := res
    effective_stock := avail - res
    net_demand := max 0 (ao.total_quantity + ssq - (avail - res))
    calculation_date := inp.dateStr }

/-- The net-demand result rows (multiset content; ORDER BY net_demand DESC
has no tie-break and is treated like IsAggOutput). -/
def net_demand_calc (inp : PipelineInput) : List NetDemandRow :=
  (aggregated_orders inp).map (netDemandOfAgg inp)

/-! ## Task 7 / supplier orders -/

/-- The filter of the CTE ranked_suppliers (pipeline.py lines 658-666):
offers for the given SKU WHERE sp.is_active = TRUE AND s.is_active = TRUE
(the join to suppliers on supplier_id).  No condition on pack_size or
unit_price appears in the query. -/
def ranked_suppliers_pool (sps : List SupplierProduct) (sups : List Supplier)
    (sku : Int) : List SupplierProduct :=
  sps.filter (fun sp =>
    sp.sku_id == sku && sp.is_active &&
    ((sups.find? (fun s => s.supplier_id == sp.supplier_id)).map
      (fun s => s.is_active)).getD false)

/-- ROW_NUMBER() OVER (PARTITION BY sku_id ORDER BY unit_price ASC) = 1:
the selected offer is one of minimal unit_price.  The window order has no
tie-break, so among equal prices the engine's pick is arbitrary; this
function resolves ties to the first such offer in table order and is used
for the per-row claims, which hold for every valid pick.  The relation
IsRankOneOffer below captures the engine's full freedom, and selectOffer is
proved to be one valid resolution of it. -/
def selectOffer (sps : List SupplierProduct) (sups : List Supplier)
    (sku : Int) : Option SupplierProduct :=
  match ranked_suppliers_pool sps sups sku with
  | [] => none
  | o :: rest => some (rest.foldl
      (fun best p => if p.unit_price < best.unit_price then p else best) o)

/-- Integer value of CEILING(CAST(nd AS DOUBLE) / ps) for 0 ≤ nd and
0 < ps.  In that domain (and for the magnitudes a BIGINT quantity reaches
before the DOUBLE mantissa runs out) the SQL expression equals the exact
rational ceiling, i.e. Nat ceiling division.  For ps ≤ 0 the SQL expression
is a floating-point artifact (Infinity/NaN); no theorem below evaluates the
quantity formula there. -/
def ceilPacks (nd ps : Int) : Int :=
  Int.ofNat ((nd.toNat + ps.toNat - 1) / ps.toNat)

/-- GREATEST(rs.min_order_qty, CEILING(nd / rs.pack_size) * rs.pack_size)
(pipeline.py line 672). -/
def orderQuantity (nd ps minq : Int) : Int :=
  max minq (ceilPacks nd ps * ps)

/-- One emitted supplier-order line, before order_id assignment.  The
expected_delivery_date column (calendar DATE_ADD) is carried as the pair of
its two inputs. -/
structure SupplierOrderRow where
  sku_id : Int
  sku_code : String
  product_name : String
  category : String
  warehouse_id : Int
  warehouse_code : String
  warehouse_name : String
  city : String
  supplier_id : Int
  supplier_code : String
  supplier_name : String
  net_demand : Int
  pack_size : Int
  min_order_qty : Int
  unit_price : Int
  currency : String
  lead_time_days : Int
  order_quantity : Int
  total_cost : Int
deriving DecidableEq

/-- Row constructor for the final SELECT of the supplier-orders query. -/
def mkSupplierOrderRow (sups : List Supplier) (nd : NetDemandRow)
    (rs : SupplierProduct) : SupplierOrderRow :=
  let sup := sups.find? (fun s => s.supplier_id == rs.supplier_id)
  let oq := orderQuantity nd.net_demand rs.pack_size rs.min_order_qty
  { sku_id := nd.sku_id
    sku_code := nd.sku_code
    product_name := nd.product_name
    category := nd.category
    warehouse_id := nd.warehouse_id
    warehouse_code := nd.warehouse_code
    warehouse_name := nd.warehouse_name
    city := nd.city
    supplier_id := rs.supplier_id
    supplier_code := (sup.map (fun s => s.supplier_code)).getD ""
    supplier_name := (sup.map (fun s => s.name)).getD ""
    net_demand := nd.net_demand
    pack_size := rs.pack_size
    min_order_qty := rs.min_order_qty
    unit_price := rs.unit_price
    currency := rs.currency
    lead_time_days := rs.lead_time_days
    order_quantity := oq
    total_cost := oq * rs.unit_price }

/-- Row multiset of the supplier-orders query (pipeline.py lines 620-679):
net_demand_calc JOIN ranked_suppliers ON sku_id with price_rank = 1,
WHERE net_demand > 0.  ORDER BY total_cost DESC again fixes only sortedness,
not tie order. -/
def supplier_orders_rows (inp : PipelineInput) : List SupplierOrderRow :=
  (net_demand_calc inp).filterMap (fun nd =>
    if nd.net_demand > 0 then
      (selectOffer inp.supplier_products inp.suppliers nd.sku_id).map
        (mkSupplierOrderRow inp.suppliers nd)
    else none)

/-- Count of net-demand rows with positive demand. -/
def itemsWithDemand (inp : PipelineInput) : Nat :=
  ((net_demand_calc inp).filter (fun r => r.net_demand > 0)).length

/-- Count of emitted supplier-order lines. -/
def ordersGenerated (inp : PipelineInput) : Nat :=
  (supplier_orders_rows inp).length

/-- Count of net-demand rows with positive demand and no eligible offer
(the unsupplied-demand count the spec asks to surface; the pipeline itself
never computes it). -/
def unsuppliedDemandCount (inp : PipelineInput) : Nat :=
  ((net_demand_calc inp).filter (fun r =>
    r.net_demand > 0 &&
    (selectOffer inp.supplier_products inp.suppliers r.sku_id).isNone)).length

/-- What price_rank = 1 actually pins down: the selected offer is a pool
element of minimal unit_price.  The window ORDER BY unit_price ASC says
nothing about equal prices, so ANY such element is a valid engine pick;
selectOffer above is merely one resolution (proved below to satisfy this
relation). -/
def IsRankOneOffer (sps : List SupplierProduct) (sups : List Supplier)
    (sku : Int) (sp : SupplierProduct) : Prop :=
  sp ∈ ranked_suppliers_pool sps sups sku ∧
  ∀ q ∈ ranked_suppliers_pool sps sups sku, sp.unit_price ≤ q.unit_price

/-- Relational semantics of the final SELECT of the supplier-orders query
(net_demand_calc JOIN ranked_suppliers ON rank 1 WHERE net_demand > 0):
each net-demand row with positive demand yields one row built from SOME
rank-one offer for its sku (the engine's choice among equal prices is
arbitrary); rows with non-positive demand, or whose sku has an empty
ranking pool, yield nothing. -/
inductive SupplierRowsRel (inp : PipelineInput) :
    List NetDemandRow → List SupplierOrderRow → Prop
  | nil : SupplierRowsRel inp [] []
  | drop_nonpos {nd : NetDemandRow} {t : List NetDemandRow}
      {out : List SupplierOrderRow} :
      ¬ nd.net_demand > 0 → SupplierRowsRel inp t out →
      SupplierRowsRel inp (nd :: t) out
  | drop_unsupplied {nd : NetDemandRow} {t : List NetDemandRow}
      {out : List SupplierOrderRow} :
      nd.net_demand > 0 →
      ranked_suppliers_pool inp.supplier_products inp.suppliers nd.sku_id = [] →
      SupplierRowsRel inp t out → SupplierRowsRel inp (nd :: t) out
  | pick {nd : NetDemandRow} {rs : SupplierProduct} {t : List NetDemandRow}
      {out : List SupplierOrderRow} :
      nd.net_demand > 0 →
      IsRankOneOffer inp.supplier_products inp.suppliers nd.sku_id rs →
      SupplierRowsRel inp t out →
      SupplierRowsRel inp (nd :: t) (mkSupplierOrderRow inp.suppliers nd rs :: out)

/-- ORDER BY net_demand DESC (pipeline.py line 540) fixes only this much
about the emitted net-demand sequence: a permutation of the computed rows,
non-increasing in net_demand.  Like the other ORDER BYs it has no
tie-break. -/
def IsNetDemandOutput (inp : PipelineInput) (out : List NetDemandRow) : Prop :=
  out.Perm (net_demand_calc inp) ∧
  out.Pairwise (fun a b => b.net_demand ≤ a.net_demand)

/-! ## Purchase-order assembly (pipeline.py lines 685-691) -/

/-- Python f-string field 05d: the decimal digits of n, left-padded with
zeros to at least five characters. -/
def decimalChars (n : Nat) : List Char :=
  (Nat.digits 10 n).reverse.map (fun d => Char.ofNat (48 + d))

/-- Zero-padded 5-digit decimal, the i:05d of the order-id format string. -/
def pad5 (n : Nat) : String :=
  String.mk (List.replicate (5 - (decimalChars n).length) '0' ++ decimalChars n)

/-- order_id assigned to the row at 1-based sequence number n:
PO-{date_str_iso with dashes removed}-{n:05d}. -/
def orderIdOf (dateIso : String) (n : Nat) : String :=
  "PO-" ++ (dateIso.replace "-" "") ++ "-" ++ pad5 n

/-- A finished purchase order: the queried row plus the Python-assigned
order_id, order_date and status fields. -/
structure PurchaseOrder where
  line : SupplierOrderRow
  order_id : String
  order_date : String
  status : String
deriving DecidableEq

/-- The enumeration loop of generate_supplier_orders_with_trino
(lines 685-691): for i, row in enumerate(rows, 1), assign
order_id = PO-date-i:05d, order_date = date_str_iso, status = PENDING,
in the given row order. -/
def assembleOrders (dateIso : String) (rows : List SupplierOrderRow) :
    List PurchaseOrder :=
  rows.mapIdx (fun i r =>
    { line := r
      order_id := orderIdOf dateIso (i + 1)
      order_date := dateIso
      status := "PENDING" })

/-! ## File behaviour of the three result tasks

Each task writes a JSON temp file unconditionally, writes the CSV temp file
only if the result list is nonempty, and then uploads both temp files to
HDFS unconditionally.  load_file on a missing local file raises, and
log_exception turns any exception into AirflowException, failing the task.
The temp directory contents are threaded as a list of file names
(temp0 = files left over from earlier executions; a first run has none). -/

/-- WebHDFSHook.load_file: succeeds only if the source file exists. -/
def uploadFile (written : List String) (src : String) : Except String Unit :=
  if src ∈ written then Except.ok () else Except.error ("FileNotFoundError: " ++ src)

/-- Generic shape of the save-and-upload tail of tasks 5, 6 and 7
(pipeline.py lines 440-461, 554-575, 696-717). -/
def saveAndUpload {α : Type} (temp0 : List String) (jsonName csvName : String)
    (rows : List α) : Except String (List α) := do
  let written := temp0 ++ [jsonName] ++ (if rows.isEmpty then [] else [csvName])
  let _ ← uploadFile written jsonName
  let _ ← uploadFile written csvName
  return rows

/-- aggregate_orders_with_trino as a whole: run the query, then save/upload. -/
def aggregate_orders_task (inp : PipelineInput) (temp0 : List String) :
    Except String (List AggRow) :=
  saveAndUpload temp0 "aggregated_orders.json" "aggregated_orders.csv"
    (aggregated_orders inp)

/-- calculate_net_demand_with_trino as a whole. -/
def calculate_net_demand_task (inp : PipelineInput) (temp0 : List String) :
    Except String (List NetDemandRow) :=
  saveAndUpload temp0 "net_demand.json" "net_demand.csv" (net_demand_calc inp)

/-- generate_supplier_orders_with_trino as a whole (row content; ordering of
the written rows is the nondeterministic ORDER BY total_cost DESC). -/
def generate_supplier_orders_task (inp : PipelineInput) (temp0 : List String) :
    Except String (List PurchaseOrder) :=
  saveAndUpload temp0 "supplier_orders.json" "supplier_orders.csv"
    (assembleOrders inp.dateIso (supplier_orders_rows inp))

/-! ## Task 8 / pipeline summary (pipeline.py lines 742-805, 881-886) -/

/-- The XCom values generate_pipeline_summary pulls; none when the producing
task did not run (or pushed nothing). -/
structure XcomState where
  orders_count : Option Int
  stock_count : Option Int
  snapshots_inserted : Option Int
  aggregated_orders_count : Option Int
  net_demand_count : Option Int
  items_with_demand : Option Int
  total_net_demand : Option Int
  supplier_orders_count : Option Int
  total_procurement_cost : Option Int
deriving DecidableEq

/-- The summary document (wall-clock timestamp field excluded). -/
structure Summary where
  execution_date : String
  status : String
  orders_count : Int
  stock_count : Int
  snapshots_inserted : Int
  aggregation_combinations : Int
  net_demand_combinations : Int
  items_with_demand : Int
  net_demand_total_quantity : Int
  supplier_orders_generated : Int
  supplier_orders_total_cost : Int
deriving DecidableEq

/-- generate_pipeline_summary (lines 755-778): status is the constant
string completed, and every metric is xcom_pull(...) or 0. -/
def generate_pipeline_summary (dateStr : String) (x : XcomState) : Summary :=
  { execution_date := dateStr
    status := "completed"
    orders_count := x.orders_count.getD 0
    stock_count := x.stock_count.getD 0
    snapshots_inserted := x.snapshots_inserted.getD 0
    aggregation_combinations := x.aggregated_orders_count.getD 0
    net_demand_combinations := x.net_demand_count.getD 0
    items_with_demand := x.items_with_demand.getD 0
    net_demand_total_quantity := x.total_net_demand.getD 0
    supplier_orders_generated := x.supplier_orders_count.getD 0
    supplier_orders_total_cost := x.total_procurement_cost.getD 0 }

/-- trigger_rule of the generate_summary task (pipeline.py line 885): the
summary runs regardless of upstream task outcomes. -/
def generate_summary_trigger_rule : String := "all_done"

/-- The XCom values a fully successful run pushes (what each task pushes at
lines 381-384, 299, 470, 589-591, 729-730). -/
def xcomOfRun (inp : PipelineInput) : XcomState :=
  { orders_count := some inp.orders.length
    stock_count := some inp.stock.length
    snapshots_inserted := some inp.snapshots.length
    aggregated_orders_count := some (aggregated_orders inp).length
    net_demand_count := some (net_demand_calc inp).length
    items_with_demand := some (itemsWithDemand inp)
    total_net_demand := some (((net_demand_calc inp).map
      (fun r => r.net_demand)).sum)
    supplier_orders_count := some (ordersGenerated inp)
    total_procurement_cost := some (((supplier_orders_rows inp).map
      (fun r => r.total_cost)).sum) }

/-- The summary of a fully successful run. -/
def summaryOfRun (inp : PipelineInput) : Summary :=
  generate_pipeline_summary inp.dateStr (xcomOfRun inp)

/-- All numeric metrics a summary carries. -/
def summaryMetrics (s : Summary) : List Int :=
  [s.orders_count, s.stock_count, s.snapshots_inserted,
   s.aggregation_combinations, s.net_demand_combinations,
   s.items_with_demand, s.net_demand_total_quantity,
   s.supplier_orders_generated, s.supplier_orders_total_cost]

/-! ## Concrete fixtures used by witnesses and counterexamples -/

/-- Warehouse 1 of the reference data. -/
def wh1 : Warehouse := ⟨1, "WH001", "Central", "Casablanca"⟩

/-- Product with sku_id 1. -/
def prod1 : Product := ⟨1, "PROD001", "Copy Paper", "Office"⟩

/-- Product with sku_id 2. -/
def prod2 : Product := ⟨2, "PROD002", "Stapler", "Office"⟩

/-- Product with sku_id 3. -/
def prod3 : Product := ⟨3, "PROD003", "Toner", "Office"⟩

/-- Active supplier 1. -/
def sup1 : Supplier := ⟨1, "SUP001", "Alpha Supplies", true⟩

/-- Active supplier 2. -/
def sup2 : Supplier := ⟨2, "SUP002", "Beta Trade", true⟩

/-- Order-line literal for the run date. -/
def oL (oid : String) (sku qty wh : Int) : OrderLine :=
  ⟨oid, "7", sku, qty, wh, "2026-01-02"⟩

/-- Empty input for the calculation date 2026-01-02. -/
def baseInput : PipelineInput :=
  { orders := [], stock := [], snapshots := [], products := [], warehouses := []
    safety_stock := [], safety_stock_by_warehouse := [], supplier_products := []
    suppliers := [], dateIso := "2026-01-02", dateStr := "02-01-2026" }

/-- C1 scenario (the worked example of the spec): two order lines of 40 and
10 for (sku 1, warehouse 1), global safety stock 20, snapshot 30/5. -/
def c1Input : PipelineInput :=
  { baseInput with
    orders := [oL "ORD-1" 1 40 1, oL "ORD-2" 1 10 1]
    products := [prod1], warehouses := [wh1]
    safety_stock := [⟨1, 20⟩]
    snapshots := [⟨"PROD001", "2026-01-02", "WH001", 30, 5⟩] }

/-- The net-demand row the C1 scenario produces. -/
def c1Row : NetDemandRow :=
  { sku_id := 1, sku_code := "PROD001", product_name := "Copy Paper"
    category := "Office", warehouse_id := 1, warehouse_code := "WH001"
    warehouse_name := "Central", city := "Casablanca"
    aggregated_orders := 50, safety_stock := 20, available_stock := 30
    reserved_stock := 5, effective_stock := 25, net_demand := 45
    calculation_date := "02-01-2026" }

/-- C2 scenario: net demand 1, single active offer with pack_size 10 but
min_order_qty 15 (not a multiple of the pack size). -/
def c2Input : PipelineInput :=
  { baseInput with
    orders := [oL "ORD-1" 1 1 1]
    products := [prod1], warehouses := [wh1]
    suppliers := [sup1]
    supplier_products := [⟨1, 1, 10, 15, 2, 1, "MAD", true⟩] }

/-- The supplier-order line the C2 scenario emits: order_quantity
max(15, ceil(1/10)*10) = 15, not a multiple of pack_size 10. -/
def c2Row : SupplierOrderRow :=
  { sku_id := 1, sku_code := "PROD001", product_name := "Copy Paper"
    category := "Office", warehouse_id := 1, warehouse_code := "WH001"
    warehouse_name := "Central", city := "Casablanca"
    supplier_id := 1, supplier_code := "SUP001", supplier_name := "Alpha Supplies"
    net_demand := 1, pack_size := 10, min_order_qty := 15, unit_price := 1
    currency := "MAD", lead_time_days := 2, order_quantity := 15, total_cost := 15 }

/-- C3 scenario: sku 1 has only a per-warehouse safety-stock entry (qty 5)
and no global entry. -/
def c3Input : PipelineInput :=
  { baseInput with
    orders := [oL "ORD-1" 1 10 1]
    products := [prod1], warehouses := [wh1]
    safety_stock_by_warehouse := [⟨1, 1, 5⟩] }

/-- The net-demand row the C3 scenario produces: safety_stock resolves to 0,
not to the per-warehouse value 5. -/
def c3Row : NetDemandRow :=
  { sku_id := 1, sku_code := "PROD001", product_name := "Copy Paper"
    category := "Office", warehouse_id := 1, warehouse_code := "WH001"
    warehouse_name := "Central", city := "Casablanca"
    aggregated_orders := 10, safety_stock := 0, available_stock := 0
    reserved_stock := 0, effective_stock := 0, net_demand := 10
    calculation_date := "02-01-2026" }

/-- C4 scenario: two groups with the same total_quantity 5. -/
def c4Input : PipelineInput :=
  { baseInput with
    orders := [oL "ORD-1" 1 5 1, oL "ORD-2" 2 5 1]
    products := [prod1, prod2], warehouses := [wh1] }

/-- First group row of the C4 scenario. -/
def c4RowA : AggRow :=
  { sku_id := 1, sku_code := "PROD001", product_name := "Copy Paper"
    category := "Office", warehouse_id := 1, warehouse_code := "WH001"
    warehouse_name := "Central", city := "Casablanca"
    total_quantity := 5, order_count := 1, order_date := "2026-01-02" }

/-- Second group row of the C4 scenario; same total_quantity as the first. -/
def c4RowB : AggRow :=
  { sku_id := 2, sku_code := "PROD002", product_name := "Stapler"
    category := "Office", warehouse_id := 1, warehouse_code := "WH001"
    warehouse_name := "Central", city := "Casablanca"
    total_quantity := 5, order_count := 1, order_date := "2026-01-02" }

/-- C4 tie offer from supplier 1: unit price 7. -/
def c4TieOfferA : SupplierProduct := ⟨1, 1, 1, 0, 1, 7, "MAD", true⟩

/-- C4 tie offer from supplier 2: the same unit price 7 for the same sku. -/
def c4TieOfferB : SupplierProduct := ⟨2, 1, 1, 0, 2, 7, "MAD", true⟩

/-- C4 supplier-stage scenario: one sku with positive demand and two active
offers at the same unit price from different suppliers. -/
def c4TieInput : PipelineInput :=
  { baseInput with
    orders := [oL "ORD-1" 1 5 1]
    products := [prod1], warehouses := [wh1]
    suppliers := [sup1, sup2]
    supplier_products := [c4TieOfferA, c4TieOfferB] }

/-- The single net-demand row of the C4 tie scenario. -/
def c4TieNd : NetDemandRow :=
  { sku_id := 1, sku_code := "PROD001", product_name := "Copy Paper"
    category := "Office", warehouse_id := 1, warehouse_code := "WH001"
    warehouse_name := "Central", city := "Casablanca"
    aggregated_orders := 5, safety_stock := 0, available_stock := 0
    reserved_stock := 0, effective_stock := 0, net_demand := 5
    calculation_date := "02-01-2026" }

/-- The supplier-order line bought from supplier 1 in the C4 tie scenario. -/
def c4TieRowA : SupplierOrderRow :=
  { sku_id := 1, sku_code := "PROD001", product_name := "Copy Paper"
    category := "Office", warehouse_id := 1, warehouse_code := "WH001"
    warehouse_name := "Central", city := "Casablanca"
    supplier_id := 1, supplier_code := "SUP001", supplier_name := "Alpha Supplies"
    net_demand := 5, pack_size := 1, min_order_qty := 0, unit_price := 7
    currency := "MAD", lead_time_days := 1, order_quantity := 5, total_cost := 35 }

/-- The supplier-order line bought from supplier 2 in the C4 tie scenario. -/
def c4TieRowB : SupplierOrderRow :=
  { sku_id := 1, sku_code := "PROD001", product_name := "Copy Paper"
    category := "Office", warehouse_id := 1, warehouse_code := "WH001"
    warehouse_name := "Central", city := "Casablanca"
    supplier_id := 2, supplier_code := "SUP002", supplier_name := "Beta Trade"
    net_demand := 5, pack_size := 1, min_order_qty := 0, unit_price := 7
    currency := "MAD", lead_time_days := 2, order_quantity := 5, total_cost := 35 }

/-- First net-demand row of the C4 aggregation scenario. -/
def c4NdA : NetDemandRow :=
  { sku_id := 1, sku_code := "PROD001", product_name := "Copy Paper"
    category := "Office", warehouse_id := 1, warehouse_code := "WH001"
    warehouse_name := "Central", city := "Casablanca"
    aggregated_orders := 5, safety_stock := 0, available_stock := 0
    reserved_stock := 0, effective_stock := 0, net_demand := 5
    calculation_date := "02-01-2026" }

/-- Second net-demand row of the C4 aggregation scenario; same net_demand. -/
def c4NdB : NetDemandRow :=
  { sku_id := 2, sku_code := "PROD002", product_name := "Stapler"
    category := "Office", warehouse_id := 1, warehouse_code := "WH001"
    warehouse_name := "Central", city := "Casablanca"
    aggregated_orders := 5, safety_stock := 0, available_stock := 0
    reserved_stock := 0, effective_stock := 0, net_demand := 5
    calculation_date := "02-01-2026" }

/-- C5 scenario: three SKUs with positive net demand, offers exist for sku 1
and sku 2 only, so the sku 3 demand is unsupplied. -/
def c5Input : PipelineInput :=
  { baseInput with
    orders := [oL "ORD-1" 1 5 1, oL "ORD-2" 1 5 1, oL "ORD-3" 2 5 1, oL "ORD-4" 3 5 1]
    products := [prod1, prod2, prod3], warehouses := [wh1]
    suppliers := [sup1, sup2]
    supplier_products := [⟨1, 1, 1, 0, 1, 2, "MAD", true⟩, ⟨2, 2, 1, 0, 1, 3, "MAD", true⟩] }

/-- C6 scenario: five order lines of which three reference SKUs missing from
the product table (skus 8 and 9). -/
def c6Input : PipelineInput :=
  { baseInput with
    orders := [oL "ORD-1" 9 1 1, oL "ORD-2" 9 1 1, oL "ORD-3" 8 1 1,
               oL "ORD-4" 1 10 1, oL "ORD-5" 2 5 1]
    products := [prod1, prod2], warehouses := [wh1]
    suppliers := [sup1, sup2]
    supplier_products := [⟨1, 1, 1, 0, 1, 2, "MAD", true⟩, ⟨2, 2, 1, 0, 1, 3, "MAD", true⟩] }

/-- C7 scenario: zero order lines for the date, everything else present. -/
def c7Input : PipelineInput :=
  { baseInput with
    products := [prod1], warehouses := [wh1]
    suppliers := [sup1]
    supplier_products := [⟨1, 1, 10, 5, 2, 45, "MAD", true⟩] }

/-- C8 scenario: the only offer for sku 1 is active but has pack_size 0. -/
def c8Offer : SupplierProduct := ⟨1, 1, 0, 0, 1, 1, "MAD", true⟩

/-- C8 run input: positive net demand for sku 1. -/
def c8Input : PipelineInput :=
  { baseInput with
    orders := [oL "ORD-1" 1 5 1]
    products := [prod1], warehouses := [wh1]
    suppliers := [sup1]
    supplier_products := [c8Offer] }

/-- The supplier-order line the C5 scenario emits for sku 1. -/
def c5Line1 : SupplierOrderRow :=
  { sku_id := 1, sku_code := "PROD001", product_name := "Copy Paper"
    category := "Office", warehouse_id := 1, warehouse_code := "WH001"
    warehouse_name := "Central", city := "Casablanca"
    supplier_id := 1, supplier_code := "SUP001", supplier_name := "Alpha Supplies"
    net_demand := 10, pack_size := 1, min_order_qty := 0, unit_price := 2
    currency := "MAD", lead_time_days := 1, order_quantity := 10, total_cost := 20 }

/-- The aggregated row the C6 scenario produces for sku 1. -/
def c6AggRow1 : AggRow :=
  { sku_id := 1, sku_code := "PROD001", product_name := "Copy Paper"
    category := "Office", warehouse_id := 1, warehouse_code := "WH001"
    warehouse_name := "Central", city := "Casablanca"
    total_quantity := 10, order_count := 1, order_date := "2026-01-02" }

/-! ## General lemmas -/

/-- Splitting the positive-demand count of a filterMap shaped like the
supplier-order query: rows passing the filter either produce an output
element or are dropped because the inner lookup is none. -/
theorem length_filter_split {α β : Type} (l : List α) (p : α → Prop)
    [DecidablePred p] (g : α → Option β) :
    (l.filter (fun a => decide (p a))).length
      = (l.filterMap (fun a => if p a then g a else none)).length
        + (l.filter (fun a => decide (p a) && (g a).isNone)).length := by
  induction l with
  | nil => rfl
  | cons a t ih =>
    by_cases hp : p a
    · cases hg : g a <;>
        simp [List.filter_cons, List.filterMap_cons, hp, hg, ih] <;> omega
    · simp [List.filter_cons, List.filterMap_cons, hp, ih]

/-- The pack-rounding count is at least one pack when demand and pack size
are positive. -/
theorem one_le_ceilPacks (nd ps : Int) (hnd : 0 < nd) (hps : 0 < ps) :
    (1 : Int) ≤ ceilPacks nd ps := by
  have hq : 1 ≤ (nd.toNat + ps.toNat - 1) / ps.toNat := by
    rw [Nat.le_div_iff_mul_le (by omega)]
    omega
  simp only [ceilPacks]
  exact Int.ofNat_le.mpr hq

/-- The order quantity is a multiple of the pack size as soon as the
pack-rounded demand reaches min_order_qty, or min_order_qty is itself a
multiple of the pack size. -/
theorem orderQuantity_dvd (nd ps minq : Int)
    (h : minq ≤ ceilPacks nd ps * ps ∨ ps ∣ minq) :
    ps ∣ orderQuantity nd ps minq := by
  rcases h with hle | hd
  · rw [orderQuantity, max_eq_right hle]
    exact dvd_mul_left _ _
  · rcases max_choice minq (ceilPacks nd ps * ps) with hm | hm <;>
      rw [orderQuantity, hm]
    · exact hd
    · exact dvd_mul_left _ _

/-! ## Claim theorems -/

/-- Claim C1: every NetDemandRow produced by the net-demand query satisfies
net_demand = max(0, total_quantity + safety_stock − (available − reserved)),
the inventory columns default to 0 when no snapshot row exists for the row's
(sku_code, warehouse_code) on the calculation date, and net_demand is never
negative. -/
theorem c1_net_demand_formula (inp : PipelineInput) (r : NetDemandRow)
    (hr : r ∈ net_demand_calc inp) :
    r.net_demand =
      max 0 (r.aggregated_orders + r.safety_stock
        - (r.available_stock - r.reserved_stock))
    ∧ 0 ≤ r.net_demand
    ∧ ((inventory_data inp.snapshots inp.dateIso).find?
        (fun s => s.sku_code == r.sku_code && s.warehouse_code == r.warehouse_code)
          = none
       → r.available_stock = 0 ∧ r.reserved_stock = 0) := by
  rcases List.mem_map.mp hr with ⟨ao, -, rfl⟩
  refine ⟨?_, le_max_left 0 _, ?_⟩
  · cases hinv : (inventory_data inp.snapshots inp.dateIso).find?
        (fun s => s.sku_code == ao.sku_code && s.warehouse_code == ao.warehouse_code) <;>
      simp [netDemandOfAgg, hinv]
  · intro hnone
    simp only [netDemandOfAgg] at hnone ⊢
    cases hinv : (inventory_data inp.snapshots inp.dateIso).find?
        (fun s => s.sku_code == ao.sku_code && s.warehouse_code == ao.warehouse_code)
    · simp [hinv]
    · rw [hinv] at hnone; cases hnone

/-- Witness for C1 at the spec's worked scenario (50 demanded, 20 safety
stock, snapshot 30 available / 5 reserved, net demand 45). -/
theorem c1_net_demand_formula_witness :
    c1Row ∈ net_demand_calc c1Input
    ∧ (c1Row.net_demand =
        max 0 (c1Row.aggregated_orders + c1Row.safety_stock
          - (c1Row.available_stock - c1Row.reserved_stock))
      ∧ 0 ≤ c1Row.net_demand
      ∧ ((inventory_data c1Input.snapshots c1Input.dateIso).find?
          (fun s => s.sku_code == c1Row.sku_code
            && s.warehouse_code == c1Row.warehouse_code) = none
         → c1Row.available_stock = 0 ∧ c1Row.reserved_stock = 0)) :=
  ⟨by decide, c1_net_demand_formula c1Input c1Row (by decide)⟩

/-- Claim C2 counterexample: with net demand 1 and an active offer of
pack_size 10, min_order_qty 15, the emitted order_quantity is 15, which is
not a multiple of the pack size, so the claimed invariant fails even though
pack_size > 0. -/
theorem c2_counterexample :
    supplier_orders_rows c2Input = [c2Row]
    ∧ c2Row.pack_size = 10
    ∧ c2Row.min_order_qty = 15
    ∧ c2Row.order_quantity = 15
    ∧ c2Row.order_quantity % c2Row.pack_size ≠ 0 := by decide

/-- Claim C2 amended: every emitted line has order_quantity ≥ min_order_qty
and positive net demand; order_quantity is a multiple of pack_size only when
the pack-rounded demand reaches min_order_qty or min_order_qty is itself a
multiple of pack_size — in particular whenever min_order_qty ≤ pack_size
(which holds for all seed data of this repository). -/
theorem c2_amended_order_quantity (inp : PipelineInput) (l : SupplierOrderRow)
    (hl : l ∈ supplier_orders_rows inp) :
    l.min_order_qty ≤ l.order_quantity
    ∧ 0 < l.net_demand
    ∧ (l.min_order_qty ≤ ceilPacks l.net_demand l.pack_size * l.pack_size
        ∨ l.pack_size ∣ l.min_order_qty
       → l.pack_size ∣ l.order_quantity)
    ∧ (0 < l.pack_size → l.min_order_qty ≤ l.pack_size
       → l.pack_size ∣ l.order_quantity) := by
  simp only [supplier_orders_rows, List.mem_filterMap] at hl
  obtain ⟨nd, -, heq⟩ := hl
  by_cases h : nd.net_demand > 0
  · rw [if_pos h] at heq
    obtain ⟨rs, -, rfl⟩ := Option.map_eq_some'.mp heq
    simp only [mkSupplierOrderRow]
    refine ⟨le_max_left _ _, h,
      orderQuantity_dvd nd.net_demand rs.pack_size rs.min_order_qty, ?_⟩
    intro hps hmq
    have hone : (1 : Int) ≤ ceilPacks nd.net_demand rs.pack_size :=
      one_le_ceilPacks nd.net_demand rs.pack_size h hps
    have hle : rs.pack_size ≤ ceilPacks nd.net_demand rs.pack_size * rs.pack_size := by
      calc rs.pack_size = 1 * rs.pack_size := (one_mul _).symm
        _ ≤ ceilPacks nd.net_demand rs.pack_size * rs.pack_size :=
          mul_le_mul_of_nonneg_right hone (le_of_lt hps)
    exact orderQuantity_dvd nd.net_demand rs.pack_size rs.min_order_qty
      (Or.inl (le_trans hmq hle))
  · rw [if_neg h] at heq
    cases heq

/-- Witness for the amended C2 at the C2 scenario row. -/
theorem c2_amended_order_quantity_witness :
    c2Row ∈ supplier_orders_rows c2Input
    ∧ (c2Row.min_order_qty ≤ c2Row.order_quantity
      ∧ 0 < c2Row.net_demand
      ∧ (c2Row.min_order_qty ≤ ceilPacks c2Row.net_demand c2Row.pack_size * c2Row.pack_size
          ∨ c2Row.pack_size ∣ c2Row.min_order_qty
         → c2Row.pack_size ∣ c2Row.order_quantity)
      ∧ (0 < c2Row.pack_size → c2Row.min_order_qty ≤ c2Row.pack_size
         → c2Row.pack_size ∣ c2Row.order_quantity)) :=
  ⟨by decide, c2_amended_order_quantity c2Input c2Row (by decide)⟩

/-- The fold selecting the cheapest offer returns a pool element whose
unit_price is minimal over the whole pool. -/
theorem foldl_minPrice_spec (o : SupplierProduct) (rest : List SupplierProduct) :
    (rest.foldl (fun best p => if p.unit_price < best.unit_price then p else best) o)
        ∈ o :: rest
    ∧ ∀ q ∈ o :: rest,
        (rest.foldl (fun best p =>
          if p.unit_price < best.unit_price then p else best) o).unit_price
          ≤ q.unit_price := by
  induction rest generalizing o with
  | nil =>
    refine ⟨List.mem_singleton_self o, ?_⟩
    intro q hq
    rw [List.mem_singleton] at hq
    subst hq
    exact le_refl _
  | cons p t ih =>
    simp only [List.foldl_cons]
    by_cases hc : p.unit_price < o.unit_price
    · rw [if_pos hc]
      obtain ⟨hmem, hmin⟩ := ih p
      have hminhead := hmin p (List.mem_cons_self _ _)
      constructor
      · rcases List.mem_cons.mp hmem with h | h
        · rw [h]
          exact List.mem_cons_of_mem o (List.mem_cons_self p t)
        · exact List.mem_cons_of_mem o (List.mem_cons_of_mem p h)
      · intro q hq
        rcases List.mem_cons.mp hq with h | hq'
        · subst h
          exact le_trans hminhead (le_of_lt hc)
        · rcases List.mem_cons.mp hq' with h | h
          · subst h
            exact hminhead
          · exact hmin q (List.mem_cons_of_mem _ h)
    · rw [if_neg hc]
      obtain ⟨hmem, hmin⟩ := ih o
      have hminhead := hmin o (List.mem_cons_self _ _)
      constructor
      · rcases List.mem_cons.mp hmem with h | h
        · rw [h]
          exact List.mem_cons_self o _
        · exact List.mem_cons_of_mem o (List.mem_cons_of_mem p h)
      · intro q hq
        rcases List.mem_cons.mp hq with h | hq'
        · subst h
          exact hminhead
        · rcases List.mem_cons.mp hq' with h | h
          · subst h
            exact le_trans hminhead (not_lt.mp hc)
          · exact hmin q (List.mem_cons_of_mem _ h)

/-- selectOffer is one valid resolution of the rank-1 relation: whatever it
returns is a minimal-price pool element. -/
theorem selectOffer_rank_one {sps : List SupplierProduct} {sups : List Supplier}
    {sku : Int} {rs : SupplierProduct}
    (h : selectOffer sps sups sku = some rs) :
    IsRankOneOffer sps sups sku rs := by
  unfold selectOffer at h
  cases hp : ranked_suppliers_pool sps sups sku with
  | nil => rw [hp] at h; cases h
  | cons o rest =>
    rw [hp] at h
    obtain ⟨hmem, hmin⟩ := foldl_minPrice_spec o rest
    injection h with h'
    subst h'
    refine ⟨?_, ?_⟩
    · rw [hp]
      exact hmem
    · intro q hq
      rw [hp] at hq
      exact hmin q hq

/-- selectOffer returns none exactly when the ranking pool is empty. -/
theorem selectOffer_eq_none {sps : List SupplierProduct} {sups : List Supplier}
    {sku : Int} :
    selectOffer sps sups sku = none ↔ ranked_suppliers_pool sps sups sku = [] := by
  unfold selectOffer
  cases ranked_suppliers_pool sps sups sku <;> simp

/-- The deterministic supplier_orders_rows is one valid run of the
relational supplier-stage semantics. -/
theorem supplier_orders_rows_rel (inp : PipelineInput) :
    SupplierRowsRel inp (net_demand_calc inp) (supplier_orders_rows inp) := by
  simp only [supplier_orders_rows]
  generalize net_demand_calc inp = l
  induction l with
  | nil => exact SupplierRowsRel.nil
  | cons nd t ih =>
    rw [List.filterMap_cons]
    by_cases hpos : nd.net_demand > 0
    · cases hsel : selectOffer inp.supplier_products inp.suppliers nd.sku_id with
      | none =>
        rw [if_pos hpos]
        exact SupplierRowsRel.drop_unsupplied hpos (selectOffer_eq_none.mp hsel) ih
      | some rs =>
        rw [if_pos hpos]
        exact SupplierRowsRel.pick hpos (selectOffer_rank_one hsel) ih
    · rw [if_neg hpos]
      exact SupplierRowsRel.drop_nonpos hpos ih

/-- Claim C4 counterexample: determinism fails twice on the same inputs.
The aggregation input with two groups of equal total_quantity admits two
different valid output sequences (order tie); and in the supplier stage a
sku with two equal-cheapest active offers admits two valid outputs that
differ in row content — different supplier, lead time and code — so even the
output multiset is not reproducible, let alone byte-identical files. -/
theorem c4_counterexample :
    (IsAggOutput c4Input [c4RowA, c4RowB]
      ∧ IsAggOutput c4Input [c4RowB, c4RowA]
      ∧ ([c4RowA, c4RowB] : List AggRow) ≠ [c4RowB, c4RowA])
    ∧ (SupplierRowsRel c4TieInput (net_demand_calc c4TieInput) [c4TieRowA]
      ∧ SupplierRowsRel c4TieInput (net_demand_calc c4TieInput) [c4TieRowB]
      ∧ c4TieRowA.supplier_id ≠ c4TieRowB.supplier_id
      ∧ ¬ ([c4TieRowA] : List SupplierOrderRow).Perm [c4TieRowB]) := by
  have h : aggregated_orders c4Input = [c4RowA, c4RowB] := by decide
  have hnd : net_demand_calc c4TieInput = [c4TieNd] := by decide
  have hmkA : mkSupplierOrderRow c4TieInput.suppliers c4TieNd c4TieOfferA
      = c4TieRowA := by decide
  have hmkB : mkSupplierOrderRow c4TieInput.suppliers c4TieNd c4TieOfferB
      = c4TieRowB := by decide
  refine ⟨⟨⟨?_, by decide⟩, ⟨?_, by decide⟩, by decide⟩, ?_, ?_, by decide, ?_⟩
  · rw [h]
  · rw [h]
    exact List.Perm.swap c4RowA c4RowB []
  · rw [hnd, ← hmkA]
    exact SupplierRowsRel.pick (by decide) ⟨by decide, by decide⟩ SupplierRowsRel.nil
  · rw [hnd, ← hmkB]
    exact SupplierRowsRel.pick (by decide) ⟨by decide, by decide⟩ SupplierRowsRel.nil
  · intro hp
    exact absurd (List.singleton_perm_singleton.mp hp) (by decide)

/-- Claim C4 amended: on identical inputs the aggregation and net-demand
stages are reproducible as multisets — any two valid output sequences are
permutations of each other — and the deterministic embedding of the
supplier stage realizes the rank-1 join relation; but no ORDER BY fixes tie
order, and the supplier stage is not even multiset-reproducible when a sku
has two equal-cheapest offers (the equal-price ROW_NUMBER tie may select
either supplier; see the counterexample). -/
theorem c4_amended_stage_reproducibility :
    (∀ (inp : PipelineInput) (out1 out2 : List AggRow),
        IsAggOutput inp out1 → IsAggOutput inp out2 → out1.Perm out2)
    ∧ (∀ (inp : PipelineInput) (out1 out2 : List NetDemandRow),
        IsNetDemandOutput inp out1 → IsNetDemandOutput inp out2 → out1.Perm out2)
    ∧ (∀ inp : PipelineInput,
        SupplierRowsRel inp (net_demand_calc inp) (supplier_orders_rows inp)) :=
  ⟨fun _ _ _ h1 h2 => h1.1.trans h2.1.symm,
   fun _ _ _ h1 h2 => h1.1.trans h2.1.symm,
   supplier_orders_rows_rel⟩

/-- Witness for the amended C4: both tie scenarios instantiated concretely,
plus the relational run of the deterministic supplier stage. -/
theorem c4_amended_stage_reproducibility_witness :
    ([c4RowA, c4RowB] : List AggRow).Perm [c4RowB, c4RowA]
    ∧ ([c4NdA, c4NdB] : List NetDemandRow).Perm [c4NdB, c4NdA]
    ∧ SupplierRowsRel c4TieInput (net_demand_calc c4TieInput)
        (supplier_orders_rows c4TieInput) :=
  ⟨c4_amended_stage_reproducibility.1 c4Input [c4RowA, c4RowB] [c4RowB, c4RowA]
      ⟨by rw [show aggregated_orders c4Input = [c4RowA, c4RowB] by decide],
        by decide⟩
      ⟨by rw [show aggregated_orders c4Input = [c4RowA, c4RowB] by decide]
          exact List.Perm.swap c4RowA c4RowB [], by decide⟩,
   c4_amended_stage_reproducibility.2.1 c4Input [c4NdA, c4NdB] [c4NdB, c4NdA]
      ⟨by rw [show net_demand_calc c4Input = [c4NdA, c4NdB] by decide],
        by decide⟩
      ⟨by rw [show net_demand_calc c4Input = [c4NdA, c4NdB] by decide]
          exact List.Perm.swap c4NdA c4NdB [], by decide⟩,
   c4_amended_stage_reproducibility.2.2 c4TieInput⟩

/-- Claim C5 counterexample: in a run with exactly one unsupplied demand row,
no metric of the generated summary equals that count — the pipeline never
computes an unsupplied-demand counter, so it is not surfaced. -/
theorem c5_counterexample :
    unsuppliedDemandCount c5Input = 1
    ∧ summaryMetrics (summaryOfRun c5Input) = [4, 0, 0, 3, 3, 3, 20, 2, 35]
    ∧ (1 : Int) ∉ summaryMetrics (summaryOfRun c5Input) := by decide

/-- Claim C5 amended: a positive-demand row whose sku has no offer in the
ranking pool produces no output row (no output line carries such a sku), and
the unsupplied count is not a summary metric — it is only derivable as
items_with_demand − orders_generated. -/
theorem c5_amended_unsupplied :
    (∀ (inp : PipelineInput) (s : Int),
        ranked_suppliers_pool inp.supplier_products inp.suppliers s = [] →
        ∀ l ∈ supplier_orders_rows inp, l.sku_id ≠ s)
    ∧ ∀ inp : PipelineInput,
        itemsWithDemand inp = ordersGenerated inp + unsuppliedDemandCount inp := by
  constructor
  · intro inp s hpool l hl hsk
    simp only [supplier_orders_rows, List.mem_filterMap] at hl
    obtain ⟨nd, -, heq⟩ := hl
    by_cases h : nd.net_demand > 0
    · rw [if_pos h] at heq
      obtain ⟨rs, hrs, rfl⟩ := Option.map_eq_some'.mp heq
      have : nd.sku_id = s := hsk
      rw [this] at hrs
      rw [selectOffer, hpool] at hrs
      cases hrs
    · rw [if_neg h] at heq
      cases heq
  · intro inp
    have hsplit := length_filter_split (net_demand_calc inp)
      (fun r => r.net_demand > 0)
      (fun nd => (selectOffer inp.supplier_products inp.suppliers nd.sku_id).map
        (mkSupplierOrderRow inp.suppliers nd))
    have hfix : (fun (r : NetDemandRow) => decide (r.net_demand > 0)
          && ((selectOffer inp.supplier_products inp.suppliers r.sku_id).map
            (mkSupplierOrderRow inp.suppliers r)).isNone)
        = fun r => decide (r.net_demand > 0)
          && (selectOffer inp.supplier_products inp.suppliers r.sku_id).isNone := by
      funext r
      cases selectOffer inp.supplier_products inp.suppliers r.sku_id <;> rfl
    rw [hfix] at hsplit
    exact hsplit

/-- Witness for the amended C5 at the C5 scenario (sku 3 unsupplied). -/
theorem c5_amended_unsupplied_witness :
    ranked_suppliers_pool c5Input.supplier_products c5Input.suppliers 3 = []
    ∧ c5Line1 ∈ supplier_orders_rows c5Input
    ∧ c5Line1.sku_id ≠ 3
    ∧ itemsWithDemand c5Input = ordersGenerated c5Input + unsuppliedDemandCount c5Input :=
  ⟨by decide, by decide,
    c5_amended_unsupplied.1 c5Input 3 (by decide) c5Line1 (by decide),
    c5_amended_unsupplied.2 c5Input⟩

/-- Claim C6 counterexample: in a run with exactly three order lines lacking
a product match, no metric of the generated summary equals that count — the
pipeline never computes an unmatched-reference counter. -/
theorem c6_counterexample :
    unmatchedLineCount c6Input = 3
    ∧ summaryMetrics (summaryOfRun c6Input) = [5, 0, 0, 2, 2, 2, 15, 2, 35]
    ∧ (3 : Int) ∉ summaryMetrics (summaryOfRun c6Input) := by decide

/-- Claim C6 amended: the aggregation has inner-join semantics — every
output row has matching product and warehouse reference rows, and an order
line without both matches contributes to no output group — but the dropped
count is not reported anywhere. -/
theorem c6_amended_inner_join :
    (∀ (inp : PipelineInput) (r : AggRow), r ∈ aggregated_orders inp →
        (inp.products.find? (fun p => p.sku_id == r.sku_id)).isSome = true
        ∧ (inp.warehouses.find? (fun w => w.warehouse_id == r.warehouse_id)).isSome
            = true)
    ∧ (∀ (inp : PipelineInput) (o : OrderLine), o ∈ inp.orders →
        matchedLine inp.products inp.warehouses o = false →
        ∀ r ∈ aggregated_orders inp,
          ¬(r.sku_id = o.sku_id ∧ r.warehouse_id = o.warehouse_id)) := by
  constructor
  · intro inp r hr
    simp only [aggregated_orders, List.mem_filterMap] at hr
    obtain ⟨k, -, heq⟩ := hr
    cases hp : inp.products.find? (fun p => p.sku_id == k.1) with
    | none => rw [hp] at heq; cases heq
    | some p =>
      cases hw : inp.warehouses.find? (fun w => w.warehouse_id == k.2) with
      | none => rw [hp, hw] at heq; cases heq
      | some w =>
        rw [hp, hw] at heq
        cases heq
        constructor
        · simp only []
          rw [hp]
          rfl
        · simp only []
          rw [hw]
          rfl
  · intro inp o ho hmatch r hr hkey
    simp only [aggregated_orders, List.mem_filterMap] at hr
    obtain ⟨k, hk, heq⟩ := hr
    have hk1 : k.1 = o.sku_id ∧ k.2 = o.warehouse_id := by
      cases hp : inp.products.find? (fun p => p.sku_id == k.1) with
      | none => rw [hp] at heq; cases heq
      | some p =>
        cases hw : inp.warehouses.find? (fun w => w.warehouse_id == k.2) with
        | none => rw [hp, hw] at heq; cases heq
        | some w =>
          rw [hp, hw] at heq
          cases heq
          exact hkey
    rcases List.mem_map.mp (List.mem_dedup.mp hk) with ⟨o2, ho2, hko⟩
    have ho2m : matchedLine inp.products inp.warehouses o2 = true :=
      (List.mem_filter.mp ho2).2
    have hids : o2.sku_id = o.sku_id ∧ o2.warehouse_id = o.warehouse_id := by
      have h1 : o2.sku_id = k.1 := congrArg Prod.fst hko
      have h2 : o2.warehouse_id = k.2 := congrArg Prod.snd hko
      exact ⟨h1.trans hk1.1, h2.trans hk1.2⟩
    rw [matchedLine, hids.1, hids.2] at ho2m
    rw [matchedLine] at hmatch
    rw [ho2m] at hmatch
    cases hmatch

/-- Witness for the amended C6 at the C6 scenario (sku 9 unmatched). -/
theorem c6_amended_inner_join_witness :
    c6AggRow1 ∈ aggregated_orders c6Input
    ∧ ((c6Input.products.find? (fun p => p.sku_id == c6AggRow1.sku_id)).isSome = true
      ∧ (c6Input.warehouses.find?
          (fun w => w.warehouse_id == c6AggRow1.warehouse_id)).isSome = true)
    ∧ matchedLine c6Input.products c6Input.warehouses (oL "ORD-1" 9 1 1) = false
    ∧ ¬(c6AggRow1.sku_id = (oL "ORD-1" 9 1 1).sku_id
        ∧ c6AggRow1.warehouse_id = (oL "ORD-1" 9 1 1).warehouse_id) :=
  ⟨by decide, c6_amended_inner_join.1 c6Input c6AggRow1 (by decide), by decide,
    c6_amended_inner_join.2 c6Input (oL "ORD-1" 9 1 1) (by decide) (by decide)
      c6AggRow1 (by decide)⟩

/-- Claim C7 (code bug): with zero order lines for the date all three query
results are empty as the claim demands, but each result task then raises —
the CSV temp file is written only when the result is nonempty (pipeline.py
lines 449, 563, 705) yet uploaded unconditionally (lines 461, 575, 717), so
on a fresh temp directory load_file hits a missing file and log_exception
turns that into a task failure instead of a clean empty run. -/
theorem c7_empty_input_tasks_fail :
    aggregated_orders c7Input = []
    ∧ net_demand_calc c7Input = []
    ∧ supplier_orders_rows c7Input = []
    ∧ aggregate_orders_task c7Input []
        = Except.error "FileNotFoundError: aggregated_orders.csv"
    ∧ calculate_net_demand_task c7Input []
        = Except.error "FileNotFoundError: net_demand.csv"
    ∧ generate_supplier_orders_task c7Input []
        = Except.error "FileNotFoundError: supplier_orders.csv" :=
  ⟨by decide, by decide, by decide, rfl, rfl, rfl⟩

/-- Claim C8 counterexample: an active offer with pack_size 0 is not
excluded — it sits in the ranking pool and is selected as the cheapest offer
for a sku with positive demand, so the quantity formula is reached with a
non-positive pack size. -/
theorem c8_counterexample :
    c8Offer.is_active = true
    ∧ c8Offer.pack_size ≤ 0
    ∧ c8Offer ∈ ranked_suppliers_pool c8Input.supplier_products c8Input.suppliers 1
    ∧ selectOffer c8Input.supplier_products c8Input.suppliers 1 = some c8Offer
    ∧ (net_demand_calc c8Input).map NetDemandRow.net_demand = [5] := by decide

/-- Claim C8 amended: the ranking pool is characterized by offer and
supplier activity alone — pack_size and unit_price are never inspected, so
offers with pack_size ≤ 0 or unit_price ≤ 0 are not excluded from the
ranking. -/
theorem c8_amended_pool_characterization (sps : List SupplierProduct)
    (sups : List Supplier) (sku : Int) (sp : SupplierProduct) :
    sp ∈ ranked_suppliers_pool sps sups sku ↔
      sp ∈ sps ∧ sp.sku_id = sku ∧ sp.is_active = true
      ∧ ((sups.find? (fun s => s.supplier_id == sp.supplier_id)).map
          (fun s => s.is_active)).getD false = true := by
  simp only [ranked_suppliers_pool, List.mem_filter, Bool.and_eq_true, beq_iff_eq]
  tauto

/-- Witness for the amended C8: the pack_size-0 offer of the C8 scenario is
in the pool. -/
theorem c8_amended_pool_characterization_witness :
    c8Offer ∈ ranked_suppliers_pool c8Input.supplier_products c8Input.suppliers 1 :=
  (c8_amended_pool_characterization c8Input.supplier_products c8Input.suppliers
    1 c8Offer).mpr (by refine ⟨by decide, by decide, by decide, by decide⟩)

/-- The sku column of a combined safety row is the global row's sku. -/
theorem safetyRowFor_sku_id (ssw : List SafetyStockByWarehouse)
    (s : SafetyStock) (w : Warehouse) :
    (safetyRowFor ssw s w).sku_id = s.sku_id := by
  unfold safetyRowFor
  split <;> rfl

/-- The warehouse column of a combined safety row is the joined warehouse. -/
theorem safetyRowFor_warehouse_id (ssw : List SafetyStockByWarehouse)
    (s : SafetyStock) (w : Warehouse) :
    (safetyRowFor ssw s w).warehouse_id = w.warehouse_id := by
  unfold safetyRowFor
  split <;> rfl

/-- Claim C3 counterexample: a SKU with a per-warehouse safety-stock entry
(qty 5) but no global entry resolves to 0, not to its per-warehouse value —
the combined CTE is driven by the global table, so the fall-through case of
the claim fails. -/
theorem c3_counterexample :
    resolvedSafety [] [⟨1, 1, 5⟩] [wh1] 1 1 = 0
    ∧ net_demand_calc c3Input = [c3Row]
    ∧ c3Row.safety_stock = 0
    ∧ c3Row.net_demand = 10
    ∧ (0 : Int) ≠ 5 := by decide

/-- Claim C3 amended: the resolved safety stock prefers the per-warehouse
entry and falls back to the global entry only for SKUs that have a global
entry and warehouses present in the warehouse table; a (sku, warehouse) with
no global entry — even one with a per-warehouse entry — resolves to 0. -/
theorem c3_amended_resolution (ss : List SafetyStock)
    (ssw : List SafetyStockByWarehouse) (whs : List Warehouse) (sku wh : Int) :
    resolvedSafety ss ssw whs sku wh =
      match ss.find? (fun s => s.sku_id == sku),
            whs.find? (fun w => w.warehouse_id == wh) with
      | some g, some _ =>
        (match ssw.find? (fun e => e.sku_id == sku && e.warehouse_id == wh) with
         | some e => e.safety_stock_qty
         | none => g.safety_stock_qty)
      | _, _ => 0 := by
  cases hw : whs.find? (fun w => w.warehouse_id == wh) with
  | none =>
    have hnone : (safety_stock_combined ss ssw whs).find?
        (fun r => r.sku_id == sku && r.warehouse_id == wh) = none := by
      rw [List.find?_eq_none]
      intro t ht
      rcases List.mem_flatMap.mp ht with ⟨s, -, htm⟩
      rcases List.mem_map.mp htm with ⟨w, hwmem, rfl⟩
      have hwne := List.find?_eq_none.mp hw w hwmem
      simp only [safetyRowFor_sku_id, safetyRowFor_warehouse_id, Bool.and_eq_true]
      rintro ⟨-, h2⟩
      exact hwne h2
    cases hss : ss.find? (fun s => s.sku_id == sku) <;>
      simp [resolvedSafety, hnone]
  | some w0 =>
    have hw0 : w0.warehouse_id = wh := by
      have := List.find?_some hw
      simpa using this
    induction ss with
    | nil => simp [resolvedSafety, safety_stock_combined]
    | cons s rest ih =>
      have hcons : safety_stock_combined (s :: rest) ssw whs
          = whs.map (safetyRowFor ssw s) ++ safety_stock_combined rest ssw whs := by
        simp [safety_stock_combined]
      by_cases hs : s.sku_id = sku
      · have hblock : (whs.map (safetyRowFor ssw s)).find?
            (fun r => r.sku_id == sku && r.warehouse_id == wh)
            = some (safetyRowFor ssw s w0) := by
          rw [List.find?_map]
          have hcomp : ((fun r : SafetyRow => r.sku_id == sku && r.warehouse_id == wh)
              ∘ safetyRowFor ssw s) = fun w => w.warehouse_id == wh := by
            funext w
            simp [Function.comp, safetyRowFor_sku_id, safetyRowFor_warehouse_id, hs]
          rw [hcomp, hw]
          rfl
        have hfind : (s :: rest).find? (fun x => x.sku_id == sku) = some s :=
          List.find?_cons_of_pos _ (by simp [hs])
        unfold resolvedSafety
        rw [hcons, List.find?_append, hblock, hfind]
        have hpred : (fun e : SafetyStockByWarehouse =>
            e.sku_id == s.sku_id && e.warehouse_id == w0.warehouse_id)
            = fun e => e.sku_id == sku && e.warehouse_id == wh := by
          funext e
          rw [hs, hw0]
        unfold safetyRowFor
        rw [hpred]
        cases hssw : ssw.find? (fun e => e.sku_id == sku && e.warehouse_id == wh) <;>
          rfl
      · have hblock : (whs.map (safetyRowFor ssw s)).find?
            (fun r => r.sku_id == sku && r.warehouse_id == wh) = none := by
          rw [List.find?_map]
          have hcomp : ((fun r : SafetyRow => r.sku_id == sku && r.warehouse_id == wh)
              ∘ safetyRowFor ssw s) = fun _ => false := by
            funext w
            simp [Function.comp, safetyRowFor_sku_id, safetyRowFor_warehouse_id, hs]
          rw [hcomp]
          simp [List.find?_eq_none]
        have hfind : (s :: rest).find? (fun x => x.sku_id == sku)
            = rest.find? (fun x => x.sku_id == sku) :=
          List.find?_cons_of_neg _ (by simp [hs])
        unfold resolvedSafety
        rw [hcons, List.find?_append, hblock, hfind, Option.none_or]
        exact ih

/-! ## C9 lemmas: decimal strings and their lexicographic order -/

/-- Horner step for reading a most-significant-first decimal character list. -/
def digitStep (a : Nat) (c : Char) : Nat := 10 * a + (c.toNat - 48)

/-- Numeric value of a most-significant-first decimal character list. -/
def charsVal (l : List Char) : Nat := l.foldl digitStep 0

/-- Digit characters: code points between those of 0 and 9. -/
def IsDigits (l : List Char) : Prop := ∀ c ∈ l, 48 ≤ c.toNat ∧ c.toNat < 58

theorem foldl_digitStep : ∀ (l : List Char) (a : Nat),
    l.foldl digitStep a = a * 10 ^ l.length + l.foldl digitStep 0
  | [], a => by simp
  | c :: t, a => by
    rw [List.foldl_cons, foldl_digitStep t (digitStep a c), List.foldl_cons,
      foldl_digitStep t (digitStep 0 c)]
    simp only [digitStep, List.length_cons, pow_succ]
    ring

theorem charsVal_cons (c : Char) (t : List Char) :
    charsVal (c :: t) = (c.toNat - 48) * 10 ^ t.length + charsVal t := by
  rw [charsVal, List.foldl_cons, foldl_digitStep]
  simp [digitStep, charsVal]

theorem charsVal_lt (l : List Char) (h : IsDigits l) : charsVal l < 10 ^ l.length := by
  induction l with
  | nil => simp [charsVal]
  | cons c t ih =>
    have hd := h c (List.mem_cons_self c t)
    have hV := ih (fun x hx => h x (List.mem_cons_of_mem c hx))
    rw [charsVal_cons, List.length_cons, pow_succ]
    calc (c.toNat - 48) * 10 ^ t.length + charsVal t
        < (c.toNat - 48) * 10 ^ t.length + 10 ^ t.length := by omega
      _ = (c.toNat - 48 + 1) * 10 ^ t.length := by ring
      _ ≤ 10 * 10 ^ t.length := Nat.mul_le_mul_right _ (by omega)
      _ = 10 ^ t.length * 10 := by ring

theorem char_lt_of_toNat_lt {a b : Char} (h : a.toNat < b.toNat) : a < b := by
  show a.val < b.val
  rw [UInt32.lt_def, BitVec.lt_def]
  exact h

theorem char_eq_of_toNat_eq {a b : Char} (h : a.toNat = b.toNat) : a = b :=
  Char.eq_of_val_eq (UInt32.eq_of_toBitVec_eq (BitVec.eq_of_toNat_eq h))

/-- Equal-length digit strings compare lexicographically exactly like their
numeric values. -/
theorem lex_of_charsVal_lt : ∀ (l₁ l₂ : List Char), l₁.length = l₂.length →
    IsDigits l₁ → IsDigits l₂ → charsVal l₁ < charsVal l₂ →
    List.Lex (· < ·) l₁ l₂
  | [], [], _, _, _, hv => absurd hv (lt_irrefl _)
  | [], _ :: _, hlen, _, _, _ => by simp at hlen
  | _ :: _, [], hlen, _, _, _ => by simp at hlen
  | c₁ :: t₁, c₂ :: t₂, hlen, h1, h2, hv => by
    have hlen' : t₁.length = t₂.length := by simpa using hlen
    have hd₁ := h1 c₁ (List.mem_cons_self _ _)
    have hd₂ := h2 c₂ (List.mem_cons_self _ _)
    have ht₁ : IsDigits t₁ := fun x hx => h1 x (List.mem_cons_of_mem _ hx)
    have ht₂ : IsDigits t₂ := fun x hx => h2 x (List.mem_cons_of_mem _ hx)
    rcases lt_trichotomy c₁.toNat c₂.toNat with hlt | heq | hgt
    · exact List.Lex.rel (char_lt_of_toNat_lt hlt)
    · have hc : c₁ = c₂ := char_eq_of_toNat_eq heq
      subst hc
      have hvt : charsVal t₁ < charsVal t₂ := by
        rw [charsVal_cons, charsVal_cons, hlen'] at hv
        omega
      exact List.Lex.cons (lex_of_charsVal_lt t₁ t₂ hlen' ht₁ ht₂ hvt)
    · exfalso
      have hb₂ : charsVal t₂ < 10 ^ t₂.length := charsVal_lt t₂ ht₂
      rw [charsVal_cons, charsVal_cons, hlen'] at hv
      have hmono : (c₂.toNat - 48 + 1) * 10 ^ t₂.length
          ≤ (c₁.toNat - 48) * 10 ^ t₂.length :=
        Nat.mul_le_mul_right _ (by omega)
      have hexp : (c₂.toNat - 48 + 1) * 10 ^ t₂.length
          = (c₂.toNat - 48) * 10 ^ t₂.length + 10 ^ t₂.length := by ring
      omega

theorem char_ofNat_toNat (k : Nat) (hk : k < 55296) : (Char.ofNat k).toNat = k := by
  have hv : k.isValidChar := Or.inl hk
  rw [Char.ofNat, dif_pos hv]
  rfl

theorem decimalChars_isDigits (n : Nat) : IsDigits (decimalChars n) := by
  intro c hc
  rcases List.mem_map.mp hc with ⟨d, hd, rfl⟩
  have hd10 : d < 10 := Nat.digits_lt_base (by norm_num) (List.mem_reverse.mp hd)
  rw [char_ofNat_toNat (48 + d) (by omega)]
  omega

theorem charsVal_digitChars : ∀ (l : List Nat), (∀ d ∈ l, d < 10) →
    charsVal ((l.reverse).map (fun d => Char.ofNat (48 + d))) = Nat.ofDigits 10 l
  | [], _ => by simp [charsVal, Nat.ofDigits_nil]
  | d :: t, h => by
    have ht : ∀ x ∈ t, x < 10 := fun x hx => h x (List.mem_cons_of_mem _ hx)
    have hd : d < 10 := h d (List.mem_cons_self _ _)
    rw [List.reverse_cons, List.map_append, charsVal, List.foldl_append]
    have htail := charsVal_digitChars t ht
    rw [charsVal] at htail
    rw [htail]
    simp only [List.map_cons, List.map_nil, List.foldl_cons, List.foldl_nil]
    rw [digitStep, char_ofNat_toNat (48 + d) (by omega), Nat.ofDigits_cons]
    omega

theorem charsVal_decimalChars (n : Nat) : charsVal (decimalChars n) = n := by
  rw [decimalChars,
    charsVal_digitChars _ (fun d hd => Nat.digits_lt_base (by norm_num) hd),
    Nat.ofDigits_digits]

theorem charsVal_replicate_zero (k : Nat) :
    List.foldl digitStep 0 (List.replicate k '0') = 0 := by
  induction k with
  | zero => rfl
  | succ k ih =>
    rw [List.replicate_succ, List.foldl_cons]
    have h0 : digitStep 0 '0' = 0 := by decide
    rw [h0]
    exact ih

theorem charsVal_pad5 (n : Nat) : charsVal (pad5 n).data = n := by
  show charsVal (List.replicate (5 - (decimalChars n).length) '0' ++ decimalChars n) = n
  rw [charsVal, List.foldl_append, charsVal_replicate_zero]
  exact charsVal_decimalChars n

theorem pad5_isDigits (n : Nat) : IsDigits (pad5 n).data := by
  intro c hc
  rcases List.mem_append.mp hc with h | h
  · have hc0 : c = '0' := List.eq_of_mem_replicate h
    subst hc0
    exact ⟨by decide, by decide⟩
  · exact decimalChars_isDigits n c h

theorem decimalChars_length_le (n : Nat) (hn : n ≤ 99999) :
    (decimalChars n).length ≤ 5 := by
  rw [decimalChars, List.length_map, List.length_reverse]
  rcases Nat.eq_zero_or_pos n with rfl | hpos
  · simp
  · rw [Nat.digits_len 10 n (by norm_num) (by omega)]
    have hpow : n < 10 ^ 5 := by
      have h5 : (10 : Nat) ^ 5 = 100000 := by norm_num
      omega
    have := Nat.log_lt_of_lt_pow (by omega) hpow
    omega

theorem pad5_length (n : Nat) (hn : n ≤ 99999) : (pad5 n).data.length = 5 := by
  show (List.replicate (5 - (decimalChars n).length) '0' ++ decimalChars n).length = 5
  rw [List.length_append, List.length_replicate]
  have := decimalChars_length_le n hn
  omega

theorem pad5_inj {m n : Nat} (h : (pad5 m).data = (pad5 n).data) : m = n := by
  have hv := congrArg charsVal h
  rwa [charsVal_pad5, charsVal_pad5] at hv

theorem pad5_lex {m n : Nat} (hmn : m < n) (hn : n ≤ 99999) :
    List.Lex (· < ·) (pad5 m).data (pad5 n).data :=
  lex_of_charsVal_lt _ _
    (by rw [pad5_length m (by omega), pad5_length n hn])
    (pad5_isDigits m) (pad5_isDigits n)
    (by rw [charsVal_pad5, charsVal_pad5]; exact hmn)

theorem lex_append_left (p : List Char) {l₁ l₂ : List Char}
    (h : List.Lex (· < ·) l₁ l₂) : List.Lex (· < ·) (p ++ l₁) (p ++ l₂) := by
  induction p with
  | nil => exact h
  | cons c t ih => exact List.Lex.cons ih

theorem orderIdOf_lt (d : String) {m n : Nat} (hmn : m < n) (hn : n ≤ 99999) :
    orderIdOf d m < orderIdOf d n := by
  rw [String.lt_iff_toList_lt]
  show List.Lex (· < ·) (orderIdOf d m).data (orderIdOf d n).data
  simp only [orderIdOf, String.data_append]
  exact lex_append_left _ (pad5_lex hmn hn)

theorem orderIdOf_inj (d : String) {m n : Nat}
    (h : orderIdOf d m = orderIdOf d n) : m = n := by
  apply pad5_inj
  have hd := congrArg String.data h
  simp only [orderIdOf, String.data_append] at hd
  exact List.append_cancel_left hd

/-- Claim C9: the assembler maps the i-th input row (0-based) to a purchase
order with order_id = PO-(date without dashes)-(i+1 as a zero-padded 5-digit
number), order_date equal to the calculation date and status PENDING, in the
input's existing order; the generated order ids are injective in the
sequence number and strictly increasing (lexicographically) as long as the
sequence number fits the 5-digit format. -/
theorem c9_assembler (d : String) (rows : List SupplierOrderRow) :
    (assembleOrders d rows).length = rows.length
    ∧ (∀ i : Nat, (assembleOrders d rows)[i]?
        = rows[i]?.map (fun r =>
            { line := r, order_id := orderIdOf d (i + 1)
              order_date := d, status := "PENDING" }))
    ∧ (∀ m n : Nat, orderIdOf d m = orderIdOf d n → m = n)
    ∧ (∀ m n : Nat, m < n → n ≤ 99999 → orderIdOf d m < orderIdOf d n) := by
  refine ⟨by simp [assembleOrders], ?_,
    fun m n h => orderIdOf_inj d h, fun m n hmn hn => orderIdOf_lt d hmn hn⟩
  intro i
  simp [assembleOrders, orderIdOf]

/-- Witness for C9: sequence numbers 1 and 2 give distinct, increasing order
ids, and the empty run assembles to the empty list. -/
theorem c9_assembler_witness :
    (1 : Nat) < 2 ∧ (2 : Nat) ≤ 99999
    ∧ orderIdOf "2026-01-02" 1 < orderIdOf "2026-01-02" 2
    ∧ (7 : Nat) = 7
    ∧ (assembleOrders "2026-01-02" []).length = 0 :=
  ⟨by decide, by decide,
    (c9_assembler "2026-01-02" []).2.2.2 1 2 (by decide) (by decide),
    (c9_assembler "2026-01-02" []).2.2.1 7 7 rfl,
    (c9_assembler "2026-01-02" []).1⟩

/-- Claim C10: the summary reports the constant status completed, the
summary task runs under trigger_rule all_done (regardless of upstream
outcomes), and a metric whose producing stage pushed nothing is silently
reported as 0 — so a completed summary does not imply supplier-order output
exists. -/
theorem c10_summary_unconditional (d : String) (x : XcomState) :
    (generate_pipeline_summary d x).status = "completed"
    ∧ generate_summary_trigger_rule = "all_done"
    ∧ (generate_pipeline_summary d
        { x with supplier_orders_count := none }).supplier_orders_generated = 0
    ∧ (generate_pipeline_summary d
        { x with supplier_orders_count := none }).status = "completed" :=
  ⟨rfl, rfl, rfl, rfl⟩

end Procurement
